import Mathlib

/-!
# Verification of the gee2 query-processing core

Shallow embedding of the keyword-extraction / response-selection /
visualization logic of `server/routes.ts` (`extractParameters`,
`generateResponse`, `generateVisualizationData`) and of the in-memory
record store `MemStorage` of `server/storage.ts`, together with proofs
of the behavioural properties stated in the specification.

Machine strings are modelled as Lean `String`; JavaScript `undefined`
fields are modelled as `Option`; the JS truthiness tests that the code
performs on strings and arrays are embedded explicitly (`jsOrStr`,
`jsCondStr`, and pattern matches on `Option`).  The current calendar
year (`new Date().getFullYear().toString()`) and record timestamps
(`new Date()`) are passed in explicitly, so every embedded function is
pure and total.
-/

namespace Gee2

/-! ## String primitives used by the route handlers -/

/-- ASCII lower-casing of one character, as `String.prototype.toLowerCase`
acts on the ASCII range (the only range the keyword checks exercise). -/
def jsLowerChar (c : Char) : Char :=
  if 65 ≤ c.toNat && c.toNat ≤ 90 then Char.ofNat (c.toNat + 32) else c

/-- Embedding of `prompt.toLowerCase()` on the ASCII range. -/
def lowerStr (s : String) : String :=
  String.mk (s.data.map jsLowerChar)

/-- Does `pat` occur at the head of `hay`? -/
def startsWithList : List Char → List Char → Bool
  | [], _ => true
  | _ :: _, [] => false
  | a :: as, b :: bs => a == b && startsWithList as bs

/-- Does `pat` occur anywhere in `hay`?  (`String.prototype.includes`.) -/
def hasSubstrList (pat : List Char) : List Char → Bool
  | [] => startsWithList pat []
  | c :: rest => startsWithList pat (c :: rest) || hasSubstrList pat rest

/-- Embedding of `s.includes(pat)` on the underlying character lists. -/
def includesStr (s pat : String) : Bool :=
  hasSubstrList pat.data s.data

/-- The character class `\s` of JavaScript regular expressions. -/
def isJsSpace (c : Char) : Bool :=
  c == ' ' || c == '\t' || c == '\n' || c == '\r' ||
  c == '\x0b' || c == '\x0c' ||
  c.toNat == 0xA0 || c.toNat == 0x1680 ||
  (0x2000 <= c.toNat && c.toNat <= 0x200A) ||
  c.toNat == 0x2028 || c.toNat == 0x2029 || c.toNat == 0x202F ||
  c.toNat == 0x205F || c.toNat == 0x3000 || c.toNat == 0xFEFF

/-- Consume `\d{4}`: four decimal digits at the head of the input,
returning the four-character string and the remaining input. -/
def takeDigits4 : List Char → Option (String × List Char)
  | a :: b :: c :: d :: rest =>
    if a.isDigit && b.isDigit && c.isDigit && d.isDigit then
      some (String.mk [a, b, c, d], rest)
    else none
  | _ => none

/-- Consume the tail `\s*(?:to|-)?\s*(\d{4})?` of the year pattern after
the first four digits, returning the second capture group when it
matches.  The greedy choices of the JS engine cannot mask a successful
second group here, because neither whitespace nor the separator
characters are decimal digits. -/
def matchYearTail (rest : List Char) : Option String :=
  let r1 := rest.dropWhile isJsSpace
  let r2 := match r1 with
    | 't' :: 'o' :: r => r
    | '-' :: r => r
    | _ => r1
  let r3 := r2.dropWhile isJsSpace
  match takeDigits4 r3 with
  | some (y, _) => some y
  | none => none

/-- Embedding of `prompt.match(/(\d{4})\s*(?:to|-)?\s*(\d{4})?/)`: leftmost match of
the year pattern, returning the two capture groups (the second one
optional). -/
def jsYearMatch : List Char → Option (String × Option String)
  | [] => none
  | c :: rest =>
    match takeDigits4 (c :: rest) with
    | some (y1, tail) => some (y1, matchYearTail tail)
    | none => jsYearMatch rest

/-- JS `x || fallback` for an optional string: `undefined` and the empty
string are falsy. -/
def jsOrStr (x : Option String) (fallback : String) : String :=
  match x with
  | some s => if s = "" then fallback else s
  | none => fallback

/-- JS `x ? f(x) : ''` for an optional string (template-literal
conditional interpolation). -/
def jsCondStr (x : Option String) (f : String → String) : String :=
  match x with
  | some s => if s = "" then "" else f s
  | none => ""

/-! ## Parameter Extractor (`extractParameters`) -/

/-- The parameter record built by `extractParameters`; every field of
the JS object is optional (absent unless a keyword was detected). -/
structure ExtractedParams where
  startYear : Option String := none
  endYear : Option String := none
  dataTypes : Option (List String) := none
  aggregation : Option String := none
  timeframe : Option String := none
deriving DecidableEq, Repr

/-- Embedding of `params.dataTypes?.includes(tag)`: optional chaining makes an absent
list behave as `false`. -/
def dtIncludes (params : ExtractedParams) (tag : String) : Bool :=
  match params.dataTypes with
  | some l => l.contains tag
  | none => false

/-- Embedding of `extractParameters(prompt)` of `server/routes.ts`, with the current
calendar year (`new Date().getFullYear().toString()`) passed in as
`currentYear`. -/
def extractParameters (currentYear : String) (prompt : String) : ExtractedParams :=
  let p0 : ExtractedParams := {}
  let p1 := match jsYearMatch prompt.data with
    | some (y1, y2) =>
      { p0 with startYear := some y1, endYear := some (jsOrStr y2 currentYear) }
    | none => p0
  let low := lowerStr prompt
  let p2 := if includesStr low "temperature" then
      { p1 with dataTypes := some ["temperature"] } else p1
  let p3 := if includesStr low "rainfall" || includesStr low "precipitation" then
      { p2 with dataTypes := some (match p2.dataTypes with
          | some l => l ++ ["rainfall"]
          | none => ["rainfall"]) } else p2
  let p4 := if includesStr low "population" then
      { p3 with dataTypes := some ["population"] } else p3
  let p5 := if includesStr low "demographics" then
      { p4 with dataTypes := some ["demographics"] } else p4
  let p6 := if includesStr low "average" then
      { p5 with aggregation := some "average" } else p5
  let p7 := if includesStr low "monthly" then
      { p6 with timeframe := some "monthly" } else p6
  let p8 := if includesStr low "yearly" || includesStr low "annual" then
      { p7 with timeframe := some "yearly" } else p7
  p8


/-! ## Record store (`MemStorage` of `server/storage.ts`) -/

/-- A JSON value as stored in the `jsonb` columns and produced by
`generateVisualizationData` (numbers are exact decimals, so `Rat`). -/
inductive JsVal where
  | str (s : String)
  | num (q : Rat)
  | arr (xs : List JsVal)
  | obj (fields : List (String × JsVal))

/-- Embedding of `Map.prototype.get`. -/
def mapGet {α : Type} : List (Nat × α) → Nat → Option α
  | [], _ => none
  | (k0, v0) :: rest, k => if k0 = k then some v0 else mapGet rest k

/-- Embedding of `Map.prototype.set`: replace the entry in place when the key is
present, otherwise append at the end (insertion order preserved). -/
def mapSet {α : Type} : List (Nat × α) → Nat → α → List (Nat × α)
  | [], k, v => [(k, v)]
  | (k0, v0) :: rest, k, v =>
    if k0 = k then (k, v) :: rest else (k0, v0) :: mapSet rest k v

/-- Embedding of `InsertLocation` (the insert schema picks name/latitude/longitude/type). -/
structure InsertLocation where
  name : String
  latitude : Option String
  longitude : Option String
  type : String

/-- A row of the `locations` table. -/
structure Location where
  id : Nat
  name : String
  latitude : Option String
  longitude : Option String
  type : String
  createdAt : Nat

/-- Embedding of `InsertQuery` (locationId/prompt/extractedParams/response/visualizationData). -/
structure InsertQuery where
  locationId : Nat
  prompt : String
  extractedParams : ExtractedParams
  response : String
  visualizationData : Option JsVal

/-- A row of the `queries` table. -/
structure Query where
  id : Nat
  locationId : Nat
  prompt : String
  extractedParams : ExtractedParams
  response : String
  visualizationData : Option JsVal
  createdAt : Nat

/-- Embedding of `InsertConversation` (locationId/sessionId). -/
structure InsertConversation where
  locationId : Nat
  sessionId : String

/-- A row of the `conversations` table. -/
structure Conversation where
  id : Nat
  locationId : Nat
  sessionId : String
  createdAt : Nat

/-- The state of `MemStorage`: three insertion-ordered maps and three
auto-increment counters. -/
structure MemStorage where
  locations : List (Nat × Location)
  queries : List (Nat × Query)
  conversations : List (Nat × Conversation)
  currentLocationId : Nat
  currentQueryId : Nat
  currentConversationId : Nat

/-- The state built by the `MemStorage` constructor. -/
def memInit : MemStorage :=
  { locations := [], queries := [], conversations := [],
    currentLocationId := 1, currentQueryId := 1, currentConversationId := 1 }

/-- Embedding of `createLocation`: assign `currentLocationId++`, stamp `new Date()`
(passed in as `now`), store and return the record. -/
def createLocation (s : MemStorage) (d : InsertLocation) (now : Nat) :
    MemStorage × Location :=
  let id := s.currentLocationId
  let location : Location :=
    { id := id, name := d.name, latitude := d.latitude,
      longitude := d.longitude, type := d.type, createdAt := now }
  ({ s with locations := mapSet s.locations id location,
            currentLocationId := id + 1 }, location)

/-- Embedding of `getLocation`. -/
def getLocation (s : MemStorage) (id : Nat) : Option Location :=
  mapGet s.locations id

/-- Embedding of `createQuery`. -/
def createQuery (s : MemStorage) (d : InsertQuery) (now : Nat) :
    MemStorage × Query :=
  let id := s.currentQueryId
  let query : Query :=
    { id := id, locationId := d.locationId, prompt := d.prompt,
      extractedParams := d.extractedParams, response := d.response,
      visualizationData := d.visualizationData, createdAt := now }
  ({ s with queries := mapSet s.queries id query,
            currentQueryId := id + 1 }, query)

/-- Embedding of `getQuery`. -/
def getQuery (s : MemStorage) (id : Nat) : Option Query :=
  mapGet s.queries id

/-- Embedding of `getQueriesByLocation`: filter the values in insertion order. -/
def getQueriesByLocation (s : MemStorage) (locationId : Nat) : List Query :=
  (s.queries.map Prod.snd).filter (fun q => q.locationId = locationId)

/-- Embedding of `createConversation`. -/
def createConversation (s : MemStorage) (d : InsertConversation) (now : Nat) :
    MemStorage × Conversation :=
  let id := s.currentConversationId
  let conversation : Conversation :=
    { id := id, locationId := d.locationId, sessionId := d.sessionId,
      createdAt := now }
  ({ s with conversations := mapSet s.conversations id conversation,
            currentConversationId := id + 1 }, conversation)

/-- Embedding of `getConversationsBySession`. -/
def getConversationsBySession (s : MemStorage) (sessionId : String) :
    List Conversation :=
  (s.conversations.map Prod.snd).filter (fun c => c.sessionId = sessionId)

/-! ## Literal HTML template text of `generateResponse` -/

def weatherHtmlA : String := "\n      <div class=\"mb-4\">\n        <h3 class=\"font-semibold mb-2 text-lg\">Weather Analysis for "

def weatherHtmlB : String := "</h3>\n        <p class=\"text-gray-700\">Based on historical data"

def weatherHtmlC : String := ", here's what I found:</p>\n      </div>\n      <div class=\"bg-white border border-gray-200 rounded-lg p-4 mb-4\">\n        <div class=\"grid grid-cols-2 gap-4 text-sm\">\n          <div>\n            <div class=\"font-medium text-green-600\">Average Temperature</div>\n            <div class=\"text-2xl font-bold text-gray-900\">58.6°F</div>\n            <div class=\"text-gray-500\">↑ 2.1°F from historical average</div>\n          </div>\n          <div>\n            <div class=\"font-medium text-green-600\">Annual Rainfall</div>\n            <div class=\"text-2xl font-bold text-gray-900\">23.4 inches</div>\n            <div class=\"text-gray-500\">↓ 15% from historical average</div>\n          </div>\n        </div>\n      </div>\n      <div class=\"bg-blue-50 border border-blue-200 rounded-lg p-4\">\n        <h4 class=\"font-medium mb-2 text-gray-900\">Key Insights:</h4>\n        <ul class=\"text-sm space-y-1 text-gray-700\">\n          <li>• Warmest months: September-October (avg 65°F)</li>\n          <li>• Coolest months: December-January (avg 52°F)</li>\n          <li>• Driest period: June-August (0.2 inches/month)</li>\n          <li>• Wettest period: December-February (6.8 inches/month)</li>\n        </ul>\n      </div>\n    "

def demographicsHtmlA : String := "\n      <div class=\"mb-4\">\n        <h3 class=\"font-semibold mb-2 text-lg\">Demographics Analysis for "

def demographicsHtmlB : String := "</h3>\n        <p class=\"text-gray-700\">Current population statistics and trends:</p>\n      </div>\n      <div class=\"grid grid-cols-2 gap-4 mb-4\">\n        <div class=\"bg-white border border-gray-200 rounded-lg p-4\">\n          <div class=\"font-medium text-green-600\">Total Population</div>\n          <div class=\"text-2xl font-bold text-gray-900\">874,961</div>\n          <div class=\"text-gray-500 text-sm\">↓ 6.3% since 2020</div>\n        </div>\n        <div class=\"bg-white border border-gray-200 rounded-lg p-4\">\n          <div class=\"font-medium text-green-600\">Population Density</div>\n          <div class=\"text-2xl font-bold text-gray-900\">18,633/mi²</div>\n          <div class=\"text-gray-500 text-sm\">2nd highest in US</div>\n        </div>\n      </div>\n      <div class=\"bg-green-50 border border-green-200 rounded-lg p-4\">\n        <h4 class=\"font-medium mb-2 text-gray-900\">Age Distribution:</h4>\n        <div class=\"space-y-2 text-sm text-gray-700\">\n          <div class=\"flex justify-between\"><span>18-34 years:</span><span class=\"font-medium\">31.2%</span></div>\n          <div class=\"flex justify-between\"><span>35-54 years:</span><span class=\"font-medium\">28.9%</span></div>\n          <div class=\"flex justify-between\"><span>55+ years:</span><span class=\"font-medium\">24.1%</span></div>\n          <div class=\"flex justify-between\"><span>Under 18:</span><span class=\"font-medium\">15.8%</span></div>\n        </div>\n      </div>\n    "

def genericHtmlA : String := "\n    <div class=\"mb-4\">\n      <h3 class=\"font-semibold mb-2 text-lg\">Geographic Analysis for "

def genericHtmlB : String := "</h3>\n      <p class=\"text-gray-700\">I've analyzed your request: \""

def genericHtmlC : String := "\"</p>\n    </div>\n    <div class=\"bg-white border border-gray-200 rounded-lg p-4 mb-4\">\n      <div class=\"text-center text-gray-500\">\n        <div class=\"text-4xl mb-2\">📊</div>\n        <p>Analysis results would appear here based on your specific query.</p>\n      </div>\n    </div>\n    <div class=\"bg-yellow-50 border border-yellow-200 rounded-lg p-4\">\n      <p class=\"text-sm text-gray-700\"><strong>Try asking about:</strong> weather patterns, population demographics, economic data, environmental factors, or historical trends for this location.</p>\n    </div>\n  "

/-- The conditional year clause of the weather sentence:
`${params.startYear ? ` from ...` : ''}${params.endYear ? ` to ...` : ''}`. -/
def yearClause (startYear endYear : Option String) : String :=
  jsCondStr startYear (fun s => " from " ++ s) ++
  jsCondStr endYear (fun s => " to " ++ s)

/-- The Weather Analysis template literal. -/
def weatherTemplate (locationName : String) (startYear endYear : Option String) :
    String :=
  weatherHtmlA ++ locationName ++ weatherHtmlB ++
  yearClause startYear endYear ++ weatherHtmlC

/-- The Demographics Analysis template literal. -/
def demographicsTemplate (locationName : String) : String :=
  demographicsHtmlA ++ locationName ++ demographicsHtmlB

/-- The Generic Analysis template literal (the prompt embedded verbatim). -/
def genericTemplate (locationName prompt : String) : String :=
  genericHtmlA ++ locationName ++ genericHtmlB ++ prompt ++ genericHtmlC

/-- Embedding of `location?.name || "the selected location"` after
`storage.getLocation(locationId)`. -/
def resolveLocationName (storage : MemStorage) (locationId : Nat) : String :=
  jsOrStr ((getLocation storage locationId).map Location.name)
    "the selected location"

/-- Embedding of `generateResponse(prompt, params, locationId)` of `server/routes.ts`,
with the storage state passed in explicitly. -/
def generateResponse (storage : MemStorage) (prompt : String)
    (params : ExtractedParams) (locationId : Nat) : String :=
  let locationName := resolveLocationName storage locationId
  if dtIncludes params "temperature" || dtIncludes params "rainfall" then
    weatherTemplate locationName params.startYear params.endYear
  else if dtIncludes params "population" || dtIncludes params "demographics" then
    demographicsTemplate locationName
  else
    genericTemplate locationName prompt

/-! ## Visualization Builder (`generateVisualizationData`) -/

def monthLabels : List String :=
  ["Jan", "Feb", "Mar", "Apr", "May", "Jun",
   "Jul", "Aug", "Sep", "Oct", "Nov", "Dec"]

def temperatureValues : List Rat :=
  [52, 54, 57, 60, 63, 66, 67, 68, 69, 65, 58, 53]

def rainfallValues : List Rat :=
  [4.5, 3.8, 3.2, 1.5, 0.7, 0.2, 0.1, 0.2, 0.4, 1.8, 3.1, 4.2]

/-- The line-chart object returned for temperature. -/
def temperatureChart : JsVal :=
  .obj [("type", .str "line"),
        ("data", .obj
          [("labels", .arr (monthLabels.map JsVal.str)),
           ("datasets", .arr
             [.obj [("label", .str "Average Temperature (°F)"),
                    ("data", .arr (temperatureValues.map JsVal.num)),
                    ("borderColor", .str "rgb(16, 163, 127)"),
                    ("backgroundColor", .str "rgba(16, 163, 127, 0.1)")]])])]

/-- The bar-chart object returned for rainfall. -/
def rainfallChart : JsVal :=
  .obj [("type", .str "bar"),
        ("data", .obj
          [("labels", .arr (monthLabels.map JsVal.str)),
           ("datasets", .arr
             [.obj [("label", .str "Rainfall (inches)"),
                    ("data", .arr (rainfallValues.map JsVal.num)),
                    ("backgroundColor", .str "rgba(16, 163, 127, 0.8)")]])])]

/-- Embedding of `generateVisualizationData(prompt, params)` of `server/routes.ts`
(`return null` modelled as `none`). -/
def generateVisualizationData (prompt : String) (params : ExtractedParams) :
    Option JsVal :=
  if dtIncludes params "temperature" then some temperatureChart
  else if dtIncludes params "rainfall" then some rainfallChart
  else none

/-! ## Specification-side definitions used for refinement claims -/

/-- Field lookup in a JSON object value. -/
def jGet (j : JsVal) (key : String) : Option JsVal :=
  match j with
  | .obj fields =>
    match fields.find? (fun f => f.1 == key) with
    | some f => some f.2
    | none => none
  | _ => none

def isStrVal : JsVal → Bool
  | .str _ => true
  | _ => false

def isNumVal : JsVal → Bool
  | .num _ => true
  | _ => false

/-- The chart-descriptor shape exactly as the specification describes it:
`{ type: "line" | "bar", labels: string[12], series: [{ label: string,
values: number[12] }] }` with `labels` and `series` at top level. -/
def specChartShape (j : JsVal) : Bool :=
  (match jGet j "type" with
   | some (.str t) => t == "line" || t == "bar"
   | _ => false) &&
  (match jGet j "labels" with
   | some (.arr ls) => ls.length == 12 && ls.all isStrVal
   | _ => false) &&
  (match jGet j "series" with
   | some (.arr [s]) =>
     (match jGet s "label" with
      | some (.str _) => true
      | _ => false) &&
     (match jGet s "values" with
      | some (.arr vs) => vs.length == 12 && vs.all isNumVal
      | _ => false)
   | _ => false)

/-- The shape the code actually emits: `labels` and a one-element
`datasets` array live under a `data` field, and the value array of the
dataset is itself named `data`. -/
def chartJsShape (j : JsVal) : Bool :=
  (match jGet j "type" with
   | some (.str t) => t == "line" || t == "bar"
   | _ => false) &&
  (match jGet j "data" with
   | some d =>
     (match jGet d "labels" with
      | some (.arr ls) => ls.length == 12 && ls.all isStrVal
      | _ => false) &&
     (match jGet d "datasets" with
      | some (.arr [s]) =>
        (match jGet s "label" with
         | some (.str _) => true
         | _ => false) &&
        (match jGet s "data" with
         | some (.arr vs) => vs.length == 12 && vs.all isNumVal
         | _ => false)
      | _ => false)
   | _ => false)

/-- The second capture of the year pattern as the specification words
it: a second four-digit run is recognised only after a literal "to" or a
hyphen (whitespace around the separator allowed). -/
def specSecondYear (rest : List Char) : Option String :=
  match rest.dropWhile isJsSpace with
  | 't' :: 'o' :: r => (takeDigits4 (r.dropWhile isJsSpace)).map Prod.fst
  | '-' :: r => (takeDigits4 (r.dropWhile isJsSpace)).map Prod.fst
  | _ => none

/-- Year detection as the specification words it: first four-digit run,
then optionally a separator-introduced second run, else the current
year. -/
def specYearFields (currentYear : String) : List Char → Option String × Option String
  | [] => (none, none)
  | c :: rest =>
    match takeDigits4 (c :: rest) with
    | some (y1, tail) =>
      (some y1,
       some (match specSecondYear tail with
             | some y2 => y2
             | none => currentYear))
    | none => specYearFields currentYear rest



/-! ## Operation sequences over the record store -/

/-- One create operation against `MemStorage`; `now` is the timestamp
the call observes (`new Date()`). -/
inductive Op where
  | insertLoc (d : InsertLocation) (now : Nat)
  | insertQry (d : InsertQuery) (now : Nat)
  | insertConv (d : InsertConversation) (now : Nat)

/-- The record returned by one create operation. -/
inductive Created where
  | loc (l : Location)
  | qry (q : Query)
  | conv (c : Conversation)

/-- Apply one create operation, returning the new state and the record
the operation returned to its caller. -/
def applyOp (s : MemStorage) : Op → MemStorage × Created
  | .insertLoc d now =>
    let r := createLocation s d now
    (r.1, .loc r.2)
  | .insertQry d now =>
    let r := createQuery s d now
    (r.1, .qry r.2)
  | .insertConv d now =>
    let r := createConversation s d now
    (r.1, .conv r.2)

/-- Run a sequence of create operations, collecting the returned
records in order. -/
def runOps (s : MemStorage) : List Op → MemStorage × List Created
  | [] => (s, [])
  | op :: rest =>
    let r := applyOp s op
    let rr := runOps r.1 rest
    (rr.1, r.2 :: rr.2)

/-- Ids assigned to location records, in creation order. -/
def locIds (cs : List Created) : List Nat :=
  cs.filterMap (fun c => match c with | .loc l => some l.id | _ => none)

/-- Ids assigned to query records, in creation order. -/
def qryIds (cs : List Created) : List Nat :=
  cs.filterMap (fun c => match c with | .qry q => some q.id | _ => none)

/-- Ids assigned to conversation records, in creation order. -/
def convIds (cs : List Created) : List Nat :=
  cs.filterMap (fun c => match c with | .conv c0 => some c0.id | _ => none)

/-- Every key stored in a table is below that table's counter. -/
def StoreInv (s : MemStorage) : Prop :=
  (∀ k, (mapGet s.locations k).isSome → k < s.currentLocationId) ∧
  (∀ k, (mapGet s.queries k).isSome → k < s.currentQueryId) ∧
  (∀ k, (mapGet s.conversations k).isSome → k < s.currentConversationId)

theorem mapGet_mapSet_self {α : Type} (m : List (Nat × α)) (k : Nat) (v : α) :
    mapGet (mapSet m k v) k = some v := by
  induction m with
  | nil => simp [mapSet, mapGet]
  | cons hd t ih =>
    obtain ⟨k0, v0⟩ := hd
    by_cases hk : k0 = k <;> simp [mapSet, mapGet, hk, ih]

theorem mapGet_mapSet_ne {α : Type} (m : List (Nat × α)) (k k' : Nat) (v : α)
    (h : k' ≠ k) : mapGet (mapSet m k v) k' = mapGet m k' := by
  induction m with
  | nil => simp [mapSet, mapGet, Ne.symm h]
  | cons hd t ih =>
    obtain ⟨k0, v0⟩ := hd
    by_cases hk : k0 = k
    · subst hk
      simp [mapSet, mapGet, Ne.symm h]
    · simp [mapSet, mapGet, hk, ih]

theorem StoreInv_applyOp (s : MemStorage) (op : Op) (h : StoreInv s) :
    StoreInv (applyOp s op).1 := by
  obtain ⟨h1, h2, h3⟩ := h
  cases op with
  | insertLoc d now =>
    refine ⟨?_, ?_, ?_⟩ <;> intro k hk
    · simp only [applyOp, createLocation] at hk ⊢
      by_cases hke : k = s.currentLocationId
      · omega
      · rw [mapGet_mapSet_ne _ _ _ _ hke] at hk
        have := h1 k hk
        omega
    · exact h2 k hk
    · exact h3 k hk
  | insertQry d now =>
    refine ⟨?_, ?_, ?_⟩ <;> intro k hk
    · exact h1 k hk
    · simp only [applyOp, createQuery] at hk ⊢
      by_cases hke : k = s.currentQueryId
      · omega
      · rw [mapGet_mapSet_ne _ _ _ _ hke] at hk
        have := h2 k hk
        omega
    · exact h3 k hk
  | insertConv d now =>
    refine ⟨?_, ?_, ?_⟩ <;> intro k hk
    · exact h1 k hk
    · exact h2 k hk
    · simp only [applyOp, createConversation] at hk ⊢
      by_cases hke : k = s.currentConversationId
      · omega
      · rw [mapGet_mapSet_ne _ _ _ _ hke] at hk
        have := h3 k hk
        omega


theorem runOps_preserves (ops : List Op) : ∀ s : MemStorage, StoreInv s →
    (∀ k v, mapGet s.locations k = some v →
      mapGet (runOps s ops).1.locations k = some v) ∧
    (∀ k v, mapGet s.queries k = some v →
      mapGet (runOps s ops).1.queries k = some v) ∧
    (∀ k v, mapGet s.conversations k = some v →
      mapGet (runOps s ops).1.conversations k = some v) := by
  induction ops with
  | nil => intro s _; exact ⟨fun _ _ h => h, fun _ _ h => h, fun _ _ h => h⟩
  | cons op rest ih =>
    intro s hs
    have hs' := StoreInv_applyOp s op hs
    obtain ⟨ih1, ih2, ih3⟩ := ih (applyOp s op).1 hs'
    refine ⟨?_, ?_, ?_⟩ <;> intro k v hk
    · apply ih1
      cases op with
      | insertLoc d now =>
        have hne : k ≠ s.currentLocationId := by
          have := hs.1 k (by simp [hk])
          omega
        simpa [applyOp, createLocation, mapGet_mapSet_ne _ _ _ _ hne] using hk
      | insertQry d now => simpa [applyOp, createQuery] using hk
      | insertConv d now => simpa [applyOp, createConversation] using hk
    · apply ih2
      cases op with
      | insertLoc d now => simpa [applyOp, createLocation] using hk
      | insertQry d now =>
        have hne : k ≠ s.currentQueryId := by
          have := hs.2.1 k (by simp [hk])
          omega
        simpa [applyOp, createQuery, mapGet_mapSet_ne _ _ _ _ hne] using hk
      | insertConv d now => simpa [applyOp, createConversation] using hk
    · apply ih3
      cases op with
      | insertLoc d now => simpa [applyOp, createLocation] using hk
      | insertQry d now => simpa [applyOp, createQuery] using hk
      | insertConv d now =>
        have hne : k ≠ s.currentConversationId := by
          have := hs.2.2 k (by simp [hk])
          omega
        simpa [applyOp, createConversation, mapGet_mapSet_ne _ _ _ _ hne] using hk

theorem runOps_found (ops : List Op) : ∀ s : MemStorage, StoreInv s →
    (∀ l : Location, Created.loc l ∈ (runOps s ops).2 →
      mapGet (runOps s ops).1.locations l.id = some l) ∧
    (∀ q : Query, Created.qry q ∈ (runOps s ops).2 →
      mapGet (runOps s ops).1.queries q.id = some q) ∧
    (∀ c : Conversation, Created.conv c ∈ (runOps s ops).2 →
      mapGet (runOps s ops).1.conversations c.id = some c) := by
  induction ops with
  | nil =>
    intro s _
    refine ⟨?_, ?_, ?_⟩ <;> intro x hx <;> simp [runOps] at hx
  | cons op rest ih =>
    intro s hs
    have hs' := StoreInv_applyOp s op hs
    obtain ⟨ih1, ih2, ih3⟩ := ih (applyOp s op).1 hs'
    obtain ⟨hp1, hp2, hp3⟩ := runOps_preserves rest (applyOp s op).1 hs'
    refine ⟨?_, ?_, ?_⟩ <;> intro x hx
    · rcases (by simpa [runOps] using hx :
          Created.loc x = (applyOp s op).2 ∨ Created.loc x ∈ (runOps (applyOp s op).1 rest).2) with hhd | htl
      · cases op with
        | insertLoc d now =>
          have hx2 : x = (createLocation s d now).2 := by
            simpa [applyOp] using hhd
          subst hx2
          simp only [runOps]
          apply hp1
          simp [applyOp, createLocation, mapGet_mapSet_self]
        | insertQry d now => simp [applyOp, createQuery] at hhd
        | insertConv d now => simp [applyOp, createConversation] at hhd
      · simpa [runOps] using ih1 x htl
    · rcases (by simpa [runOps] using hx :
          Created.qry x = (applyOp s op).2 ∨ Created.qry x ∈ (runOps (applyOp s op).1 rest).2) with hhd | htl
      · cases op with
        | insertLoc d now => simp [applyOp, createLocation] at hhd
        | insertQry d now =>
          have hx2 : x = (createQuery s d now).2 := by
            simpa [applyOp] using hhd
          subst hx2
          simp only [runOps]
          apply hp2
          simp [applyOp, createQuery, mapGet_mapSet_self]
        | insertConv d now => simp [applyOp, createConversation] at hhd
      · simpa [runOps] using ih2 x htl
    · rcases (by simpa [runOps] using hx :
          Created.conv x = (applyOp s op).2 ∨ Created.conv x ∈ (runOps (applyOp s op).1 rest).2) with hhd | htl
      · cases op with
        | insertLoc d now => simp [applyOp, createLocation] at hhd
        | insertQry d now => simp [applyOp, createQuery] at hhd
        | insertConv d now =>
          have hx2 : x = (createConversation s d now).2 := by
            simpa [applyOp] using hhd
          subst hx2
          simp only [runOps]
          apply hp3
          simp [applyOp, createConversation, mapGet_mapSet_self]
      · simpa [runOps] using ih3 x htl

theorem runOps_counters_le (ops : List Op) : ∀ s : MemStorage,
    s.currentLocationId ≤ (runOps s ops).1.currentLocationId ∧
    s.currentQueryId ≤ (runOps s ops).1.currentQueryId ∧
    s.currentConversationId ≤ (runOps s ops).1.currentConversationId := by
  induction ops with
  | nil => intro s; exact ⟨Nat.le_refl _, Nat.le_refl _, Nat.le_refl _⟩
  | cons op rest ih =>
    intro s
    obtain ⟨ih1, ih2, ih3⟩ := ih (applyOp s op).1
    cases op with
    | insertLoc d now =>
      refine ⟨?_, ?_, ?_⟩ <;>
        simp only [runOps] <;>
        [skip; skip; skip] <;>
        first
        | (refine Nat.le_trans ?_ ih1
           simp [applyOp, createLocation])
        | (refine Nat.le_trans ?_ ih2
           simp [applyOp, createLocation])
        | (refine Nat.le_trans ?_ ih3
           simp [applyOp, createLocation])
    | insertQry d now =>
      refine ⟨?_, ?_, ?_⟩ <;>
        simp only [runOps] <;>
        first
        | (refine Nat.le_trans ?_ ih1
           simp [applyOp, createQuery])
        | (refine Nat.le_trans ?_ ih2
           simp [applyOp, createQuery])
        | (refine Nat.le_trans ?_ ih3
           simp [applyOp, createQuery])
    | insertConv d now =>
      refine ⟨?_, ?_, ?_⟩ <;>
        simp only [runOps] <;>
        first
        | (refine Nat.le_trans ?_ ih1
           simp [applyOp, createConversation])
        | (refine Nat.le_trans ?_ ih2
           simp [applyOp, createConversation])
        | (refine Nat.le_trans ?_ ih3
           simp [applyOp, createConversation])

theorem runOps_ids_lb (ops : List Op) : ∀ s : MemStorage,
    (∀ i ∈ locIds (runOps s ops).2, s.currentLocationId ≤ i) ∧
    (∀ i ∈ qryIds (runOps s ops).2, s.currentQueryId ≤ i) ∧
    (∀ i ∈ convIds (runOps s ops).2, s.currentConversationId ≤ i) := by
  induction ops with
  | nil =>
    intro s
    refine ⟨?_, ?_, ?_⟩ <;> intro i hi <;> simp [runOps, locIds, qryIds, convIds] at hi
  | cons op rest ih =>
    intro s
    obtain ⟨ih1, ih2, ih3⟩ := ih (applyOp s op).1
    cases op with
    | insertLoc d now =>
      refine ⟨?_, ?_, ?_⟩ <;> intro i hi
      · rcases (by simpa [runOps, applyOp, createLocation, locIds] using hi :
            i = s.currentLocationId ∨
              i ∈ locIds (runOps (applyOp s (Op.insertLoc d now)).1 rest).2) with h | h
        · omega
        · have := ih1 i h
          simp [applyOp, createLocation] at this
          omega
      · have := ih2 i (by simpa [runOps, applyOp, createLocation, qryIds] using hi)
        simpa [applyOp, createLocation] using this
      · have := ih3 i (by simpa [runOps, applyOp, createLocation, convIds] using hi)
        simpa [applyOp, createLocation] using this
    | insertQry d now =>
      refine ⟨?_, ?_, ?_⟩ <;> intro i hi
      · have := ih1 i (by simpa [runOps, applyOp, createQuery, locIds] using hi)
        simpa [applyOp, createQuery] using this
      · rcases (by simpa [runOps, applyOp, createQuery, qryIds] using hi :
            i = s.currentQueryId ∨
              i ∈ qryIds (runOps (applyOp s (Op.insertQry d now)).1 rest).2) with h | h
        · omega
        · have := ih2 i h
          simp [applyOp, createQuery] at this
          omega
      · have := ih3 i (by simpa [runOps, applyOp, createQuery, convIds] using hi)
        simpa [applyOp, createQuery] using this
    | insertConv d now =>
      refine ⟨?_, ?_, ?_⟩ <;> intro i hi
      · have := ih1 i (by simpa [runOps, applyOp, createConversation, locIds] using hi)
        simpa [applyOp, createConversation] using this
      · have := ih2 i (by simpa [runOps, applyOp, createConversation, qryIds] using hi)
        simpa [applyOp, createConversation] using this
      · rcases (by simpa [runOps, applyOp, createConversation, convIds] using hi :
            i = s.currentConversationId ∨
              i ∈ convIds (runOps (applyOp s (Op.insertConv d now)).1 rest).2) with h | h
        · omega
        · have := ih3 i h
          simp [applyOp, createConversation] at this
          omega

theorem runOps_ids_pairwise (ops : List Op) : ∀ s : MemStorage,
    (locIds (runOps s ops).2).Pairwise (· < ·) ∧
    (qryIds (runOps s ops).2).Pairwise (· < ·) ∧
    (convIds (runOps s ops).2).Pairwise (· < ·) := by
  induction ops with
  | nil => intro s; simp [runOps, locIds, qryIds, convIds]
  | cons op rest ih =>
    intro s
    obtain ⟨ih1, ih2, ih3⟩ := ih (applyOp s op).1
    obtain ⟨lb1, lb2, lb3⟩ := runOps_ids_lb rest (applyOp s op).1
    cases op with
    | insertLoc d now =>
      refine ⟨?_, ?_, ?_⟩
      · refine (by simpa [runOps, applyOp, createLocation, locIds] :
          (locIds (runOps s (Op.insertLoc d now :: rest)).2).Pairwise (· < ·) ↔
          (s.currentLocationId :: locIds (runOps (applyOp s (Op.insertLoc d now)).1 rest).2).Pairwise (· < ·)).mpr ?_
        refine List.Pairwise.cons ?_ ih1
        intro i hi
        have := lb1 i hi
        simp [applyOp, createLocation] at this
        omega
      · simpa [runOps, applyOp, createLocation, qryIds] using ih2
      · simpa [runOps, applyOp, createLocation, convIds] using ih3
    | insertQry d now =>
      refine ⟨?_, ?_, ?_⟩
      · simpa [runOps, applyOp, createQuery, locIds] using ih1
      · refine (by simpa [runOps, applyOp, createQuery, qryIds] :
          (qryIds (runOps s (Op.insertQry d now :: rest)).2).Pairwise (· < ·) ↔
          (s.currentQueryId :: qryIds (runOps (applyOp s (Op.insertQry d now)).1 rest).2).Pairwise (· < ·)).mpr ?_
        refine List.Pairwise.cons ?_ ih2
        intro i hi
        have := lb2 i hi
        simp [applyOp, createQuery] at this
        omega
      · simpa [runOps, applyOp, createQuery, convIds] using ih3
    | insertConv d now =>
      refine ⟨?_, ?_, ?_⟩
      · simpa [runOps, applyOp, createConversation, locIds] using ih1
      · simpa [runOps, applyOp, createConversation, qryIds] using ih2
      · refine (by simpa [runOps, applyOp, createConversation, convIds] :
          (convIds (runOps s (Op.insertConv d now :: rest)).2).Pairwise (· < ·) ↔
          (s.currentConversationId :: convIds (runOps (applyOp s (Op.insertConv d now)).1 rest).2).Pairwise (· < ·)).mpr ?_
        refine List.Pairwise.cons ?_ ih3
        intro i hi
        have := lb3 i hi
        simp [applyOp, createConversation] at this
        omega

theorem StoreInv_memInit : StoreInv memInit := by
  refine ⟨?_, ?_, ?_⟩ <;> intro k hk <;> simp [memInit, mapGet] at hk


/-! ## Characterization of the extractor's year fields -/

theorem extractParameters_startYear_eq (y prompt : String) :
    (extractParameters y prompt).startYear =
      (match jsYearMatch prompt.data with
       | some (y1, _) => some y1
       | none => none) := by
  cases h : jsYearMatch prompt.data with
  | none =>
    simp [extractParameters, h, apply_ite ExtractedParams.startYear]
  | some r =>
    obtain ⟨y1, y2⟩ := r
    simp [extractParameters, h, apply_ite ExtractedParams.startYear]

theorem extractParameters_endYear_eq (y prompt : String) :
    (extractParameters y prompt).endYear =
      (match jsYearMatch prompt.data with
       | some (_, y2) => some (jsOrStr y2 y)
       | none => none) := by
  cases h : jsYearMatch prompt.data with
  | none =>
    simp [extractParameters, h, apply_ite ExtractedParams.endYear]
  | some r =>
    obtain ⟨y1, y2⟩ := r
    simp [extractParameters, h, apply_ite ExtractedParams.endYear]

theorem jsYearMatch_eq_none (cs : List Char)
    (h : ∀ i, takeDigits4 (cs.drop i) = none) : jsYearMatch cs = none := by
  induction cs with
  | nil => rfl
  | cons c rest ih =>
    have h0 : takeDigits4 (c :: rest) = none := by simpa using h 0
    have htail : ∀ i, takeDigits4 (rest.drop i) = none := by
      intro i
      simpa [List.drop_succ_cons] using h (i + 1)
    simp [jsYearMatch, h0, ih htail]

theorem jsYearMatch_eq_first (cs : List Char) (i : Nat) (y1 : String)
    (tail : List Char) (hfound : takeDigits4 (cs.drop i) = some (y1, tail))
    (hmin : ∀ j < i, takeDigits4 (cs.drop j) = none) :
    jsYearMatch cs = some (y1, matchYearTail tail) := by
  induction cs generalizing i with
  | nil =>
    simp [List.drop_nil, takeDigits4] at hfound
  | cons c rest ih =>
    cases i with
    | zero =>
      have h0 : takeDigits4 (c :: rest) = some (y1, tail) := by simpa using hfound
      simp [jsYearMatch, h0]
    | succ i0 =>
      have h0 : takeDigits4 (c :: rest) = none := by
        simpa using hmin 0 (Nat.succ_pos _)
      have hmin0 : ∀ j < i0, takeDigits4 (rest.drop j) = none := by
        intro j hj
        simpa [List.drop_succ_cons] using hmin (j + 1) (Nat.succ_lt_succ hj)
      have hfound0 : takeDigits4 (rest.drop i0) = some (y1, tail) := by
        simpa [List.drop_succ_cons] using hfound
      simp [jsYearMatch, h0, ih i0 hfound0 hmin0]

/-! ## Claim theorems -/

/-- C1 (counterexample): for prompt "temperature and rainfall" the code
does not produce `dataTypes = ["rainfall"]` — the rainfall check appends
to the list the temperature check set instead of overwriting it. -/
theorem extract_temp_rain_dataTypes_counterexample :
    (extractParameters "2025" "temperature and rainfall").dataTypes ≠
      some ["rainfall"] := by decide

/-- C1 (amended): for prompt "temperature and rainfall", whatever the
current year is, `extractParameters` returns the literal array
`["temperature", "rainfall"]`: the rainfall check appends `"rainfall"`
to the `["temperature"]` list set by the earlier temperature check. -/
theorem extract_temp_rain_dataTypes_appends (y : String) :
    (extractParameters y "temperature and rainfall").dataTypes =
      some ["temperature", "rainfall"] := rfl

/-- C2 (counterexample): on the prompt "1999 2005" the extractor pairs
the two four-digit runs although no literal "to" and no hyphen stands
between them, so the year fields differ from the spec-worded detection
(`specYearFields`), which would fall back to the current year. -/
theorem year_detection_counterexample :
    ((extractParameters "2025" "1999 2005").startYear,
     (extractParameters "2025" "1999 2005").endYear) ≠
      specYearFields "2025" "1999 2005".data := by decide

/-- C2 (amended): year detection finds the first position carrying four
consecutive digits; `startYear` is that four-digit window.  The second
capture is matched by `matchYearTail`: optional whitespace, an OPTIONAL
literal "to" or hyphen, optional whitespace, then four digits — the
separator may be absent entirely, so "1999 2005" (and even "19992005")
pairs up.  `endYear` falls back to the current year only when no second
run matches.  When no four consecutive digits occur anywhere, both
fields are absent. -/
theorem year_detection_amended (y prompt : String) :
    ((∀ i, takeDigits4 (prompt.data.drop i) = none) →
       (extractParameters y prompt).startYear = none ∧
       (extractParameters y prompt).endYear = none) ∧
    (∀ i y1 tail, takeDigits4 (prompt.data.drop i) = some (y1, tail) →
       (∀ j < i, takeDigits4 (prompt.data.drop j) = none) →
       (extractParameters y prompt).startYear = some y1 ∧
       (extractParameters y prompt).endYear =
         some (jsOrStr (matchYearTail tail) y)) := by
  constructor
  · intro h
    have hm := jsYearMatch_eq_none prompt.data h
    constructor
    · rw [extractParameters_startYear_eq, hm]
    · rw [extractParameters_endYear_eq, hm]
  · intro i y1 tail hfound hmin
    have hm := jsYearMatch_eq_first prompt.data i y1 tail hfound hmin
    constructor
    · rw [extractParameters_startYear_eq, hm]
    · rw [extractParameters_endYear_eq, hm]

/-- Witness for the amended C2 theorem: on "hello 1984" the window at
index 6 is the first four-digit window, there is no second run, and the
current-year fallback "2025" is used. -/
theorem year_detection_amended_witness :
    (extractParameters "2025" "hello 1984").startYear = some "1984" ∧
    (extractParameters "2025" "hello 1984").endYear = some "2025" := by
  have h := (year_detection_amended "2025" "hello 1984").2 6 "1984" []
    (by decide) (by decide)
  exact ⟨h.1, h.2⟩

/-- C10: the extractor sets `startYear` and `endYear` together — one is
present exactly when the other is (both come from the same regex
match). -/
theorem years_present_together (y prompt : String) :
    (extractParameters y prompt).startYear.isSome =
      (extractParameters y prompt).endYear.isSome := by
  rw [extractParameters_startYear_eq, extractParameters_endYear_eq]
  cases h : jsYearMatch prompt.data with
  | none => rfl
  | some r => obtain ⟨y1, y2⟩ := r; rfl


theorem weatherTemplate_ne_empty (n : String) (a b : Option String) :
    weatherTemplate n a b ≠ "" := by
  intro h
  have hlen := congrArg String.length h
  have hA : 0 < weatherHtmlA.length := by decide
  have h0 : ("" : String).length = 0 := rfl
  simp [weatherTemplate, String.length_append, h0] at hlen
  omega

theorem demographicsTemplate_ne_empty (n : String) :
    demographicsTemplate n ≠ "" := by
  intro h
  have hlen := congrArg String.length h
  have hA : 0 < demographicsHtmlA.length := by decide
  have h0 : ("" : String).length = 0 := rfl
  simp [demographicsTemplate, String.length_append, h0] at hlen
  omega

theorem genericTemplate_ne_empty (n p : String) : genericTemplate n p ≠ "" := by
  intro h
  have hlen := congrArg String.length h
  have hA : 0 < genericHtmlA.length := by decide
  have h0 : ("" : String).length = 0 := rfl
  simp [genericTemplate, String.length_append, h0] at hlen
  omega

/-- C3: the Response Selector chooses its branch from `dataTypes`
membership alone, in fixed order — temperature/rainfall to the Weather
template (with `startYear`/`endYear` interpolated when present),
population/demographics to the Demographics template, anything else to
the Generic template — regardless of all other fields; and the year
clause is empty when neither year field is present. -/
theorem generateResponse_branch_selection (storage : MemStorage)
    (prompt : String) (params : ExtractedParams) (locationId : Nat) :
    ((dtIncludes params "temperature" || dtIncludes params "rainfall") = true →
       generateResponse storage prompt params locationId =
         weatherTemplate (resolveLocationName storage locationId)
           params.startYear params.endYear) ∧
    ((dtIncludes params "temperature" || dtIncludes params "rainfall") = false →
     (dtIncludes params "population" || dtIncludes params "demographics") = true →
       generateResponse storage prompt params locationId =
         demographicsTemplate (resolveLocationName storage locationId)) ∧
    ((dtIncludes params "temperature" || dtIncludes params "rainfall") = false →
     (dtIncludes params "population" || dtIncludes params "demographics") = false →
       generateResponse storage prompt params locationId =
         genericTemplate (resolveLocationName storage locationId) prompt) ∧
    (params.startYear = none → params.endYear = none →
       yearClause params.startYear params.endYear = "") := by
  refine ⟨?_, ?_, ?_, ?_⟩
  · intro h
    simp [generateResponse, h]
  · intro h1 h2
    simp [generateResponse, h1, h2]
  · intro h1 h2
    simp [generateResponse, h1, h2]
  · intro h1 h2
    rw [h1, h2]
    rfl

/-- Witness for C3: one concrete record per branch, plus the empty year
clause. -/
theorem generateResponse_branch_selection_witness :
    (generateResponse memInit "p" { dataTypes := some ["temperature"] } 1 =
       weatherTemplate (resolveLocationName memInit 1) none none) ∧
    (generateResponse memInit "p" { dataTypes := some ["population"] } 1 =
       demographicsTemplate (resolveLocationName memInit 1)) ∧
    (generateResponse memInit "p" { } 1 =
       genericTemplate (resolveLocationName memInit 1) "p") ∧
    yearClause none none = "" := by
  refine ⟨?_, ?_, ?_, ?_⟩
  · exact (generateResponse_branch_selection memInit "p"
      { dataTypes := some ["temperature"] } 1).1 (by decide)
  · exact (generateResponse_branch_selection memInit "p"
      { dataTypes := some ["population"] } 1).2.1 (by decide) (by decide)
  · exact (generateResponse_branch_selection memInit "p" { } 1).2.2.1
      (by decide) (by decide)
  · exact (generateResponse_branch_selection memInit "p" { } 1).2.2.2 rfl rfl

/-- C4: the Visualization Builder checks temperature before rainfall,
first match wins: temperature gives the line chart, otherwise rainfall
gives the bar chart, otherwise nothing; both charts carry 12 month
labels and 12 fixed values. -/
theorem generateVisualizationData_branch_selection (prompt : String)
    (params : ExtractedParams) :
    (dtIncludes params "temperature" = true →
       generateVisualizationData prompt params = some temperatureChart) ∧
    (dtIncludes params "temperature" = false →
     dtIncludes params "rainfall" = true →
       generateVisualizationData prompt params = some rainfallChart) ∧
    (dtIncludes params "temperature" = false →
     dtIncludes params "rainfall" = false →
       generateVisualizationData prompt params = none) ∧
    monthLabels.length = 12 ∧ temperatureValues.length = 12 ∧
    rainfallValues.length = 12 := by
  refine ⟨?_, ?_, ?_, rfl, rfl, rfl⟩
  · intro h
    simp [generateVisualizationData, h]
  · intro h1 h2
    simp [generateVisualizationData, h1, h2]
  · intro h1 h2
    simp [generateVisualizationData, h1, h2]

/-- Witness for C4: the two membership patterns the specification calls
out — temperature together with rainfall yields the line chart,
population alone yields no chart. -/
theorem generateVisualizationData_branch_selection_witness :
    (generateVisualizationData "p" { dataTypes := some ["temperature", "rainfall"] } =
       some temperatureChart) ∧
    (generateVisualizationData "p" { dataTypes := some ["population"] } = none) := by
  constructor
  · exact (generateVisualizationData_branch_selection "p"
      { dataTypes := some ["temperature", "rainfall"] }).1 (by decide)
  · exact (generateVisualizationData_branch_selection "p"
      { dataTypes := some ["population"] }).2.2.1 (by decide) (by decide)

/-- C5 (counterexample): the builder emits `temperatureChart` for a
temperature request, and that descriptor does not have the shape the
specification states (no top-level `labels` field, no `series` array):
`labels`/`datasets` sit under a `data` wrapper. -/
theorem chart_shape_counterexample :
    generateVisualizationData "p" { dataTypes := some ["temperature"] } =
      some temperatureChart ∧
    specChartShape temperatureChart = false := ⟨rfl, rfl⟩

/-- C5 (amended): every chart descriptor produced by the Visualization
Builder has the Chart.js shape: top-level `type` is "line" or "bar",
and beneath a top-level `data` field sit a `labels` array of 12 strings
and a one-element `datasets` array whose element has a string `label`
and a 12-number array named `data`. -/
theorem chart_shape_amended (prompt : String) (params : ExtractedParams)
    (j : JsVal) (h : generateVisualizationData prompt params = some j) :
    chartJsShape j = true := by
  by_cases h1 : dtIncludes params "temperature"
  · simp [generateVisualizationData, h1] at h
    rw [← h]
    rfl
  · by_cases h2 : dtIncludes params "rainfall"
    · simp [generateVisualizationData, h1, h2] at h
      rw [← h]
      rfl
    · simp [generateVisualizationData, h1, h2] at h

/-- Witness for the amended C5 theorem. -/
theorem chart_shape_amended_witness : chartJsShape temperatureChart = true :=
  chart_shape_amended "p" { dataTypes := some ["temperature"] }
    temperatureChart rfl

/-- C6: all three core functions are total over every string input (in
this embedding they are plain functions, defined on every prompt,
parameter record and storage state), and the Response Selector always
returns a non-empty string. -/
theorem core_total_and_response_nonempty (y : String) (storage : MemStorage)
    (prompt : String) (params : ExtractedParams) (locationId : Nat) :
    (∃ r, extractParameters y prompt = r) ∧
    (∃ v, generateVisualizationData prompt params = v) ∧
    generateResponse storage prompt params locationId ≠ "" := by
  refine ⟨⟨_, rfl⟩, ⟨_, rfl⟩, ?_⟩
  by_cases h1 : (dtIncludes params "temperature" || dtIncludes params "rainfall") = true
  · have hr : generateResponse storage prompt params locationId =
        weatherTemplate (resolveLocationName storage locationId)
          params.startYear params.endYear := by
      simp [generateResponse, h1]
    rw [hr]
    exact weatherTemplate_ne_empty _ _ _
  · have h1f : (dtIncludes params "temperature" || dtIncludes params "rainfall") = false := by
      simpa using h1
    by_cases h2 : (dtIncludes params "population" || dtIncludes params "demographics") = true
    · have hr : generateResponse storage prompt params locationId =
          demographicsTemplate (resolveLocationName storage locationId) := by
        simp [generateResponse, h1f, h2]
      rw [hr]
      exact demographicsTemplate_ne_empty _
    · have h2f : (dtIncludes params "population" || dtIncludes params "demographics") = false := by
        simpa using h2
      have hr : generateResponse storage prompt params locationId =
          genericTemplate (resolveLocationName storage locationId) prompt := by
        simp [generateResponse, h1f, h2f]
      rw [hr]
      exact genericTemplate_ne_empty _ _


/-- C7: whenever the request reaches the Generic Analysis branch (no
weather or demographics tag), the returned HTML fragment contains the
original prompt text verbatim as a contiguous substring — the core
performs no sanitization or escaping. -/
theorem generic_branch_embeds_prompt (storage : MemStorage) (prompt : String)
    (params : ExtractedParams) (locationId : Nat)
    (h1 : dtIncludes params "temperature" = false)
    (h2 : dtIncludes params "rainfall" = false)
    (h3 : dtIncludes params "population" = false)
    (h4 : dtIncludes params "demographics" = false) :
    prompt.data <:+: (generateResponse storage prompt params locationId).data := by
  have hresp : generateResponse storage prompt params locationId =
      genericTemplate (resolveLocationName storage locationId) prompt := by
    simp [generateResponse, h1, h2, h3, h4]
  rw [hresp]
  exact ⟨(genericHtmlA ++ resolveLocationName storage locationId ++ genericHtmlB).data,
         genericHtmlC.data, by simp [genericTemplate, String.data_append]⟩

/-- Witness for C7: a script-like prompt with no recognized keyword is
embedded verbatim in the response. -/
theorem generic_branch_embeds_prompt_witness :
    ("<script>alert(1)</script>" : String).data <:+:
      (generateResponse memInit "<script>alert(1)</script>" { } 1).data :=
  generic_branch_embeds_prompt memInit "<script>alert(1)</script>" { } 1
    rfl rfl rfl rfl

/-- C8: with the current year, the storage state and the timestamps
passed in explicitly, each of the three functions is a pure function of
its arguments — two calls on identical inputs return identical
outputs. -/
theorem core_functions_deterministic (y1 y2 p1 p2 : String)
    (s1 s2 : MemStorage) (q1 q2 : ExtractedParams) (l1 l2 : Nat)
    (hy : y1 = y2) (hp : p1 = p2) (hs : s1 = s2) (hq : q1 = q2)
    (hl : l1 = l2) :
    extractParameters y1 p1 = extractParameters y2 p2 ∧
    generateResponse s1 p1 q1 l1 = generateResponse s2 p2 q2 l2 ∧
    generateVisualizationData p1 q1 = generateVisualizationData p2 q2 := by
  subst hy
  subst hp
  subst hs
  subst hq
  subst hl
  exact ⟨rfl, rfl, rfl⟩

/-- Witness for C8 at one concrete input. -/
theorem core_functions_deterministic_witness :
    extractParameters "2025" "temperature" = extractParameters "2025" "temperature" ∧
    generateResponse memInit "temperature" { } 1 =
      generateResponse memInit "temperature" { } 1 ∧
    generateVisualizationData "temperature" { } =
      generateVisualizationData "temperature" { } :=
  core_functions_deterministic "2025" "2025" "temperature" "temperature"
    memInit memInit { } { } 1 1 rfl rfl rfl rfl rfl

/-- C9: over every sequence of create operations against the in-memory
store, the ids assigned within each entity kind are strictly increasing
in creation order (hence unique), and retrieving a record by its id
returns exactly the record the create call returned. -/
theorem memStorage_ids_and_roundtrip (ops : List Op) :
    (locIds (runOps memInit ops).2).Pairwise (· < ·) ∧
    (locIds (runOps memInit ops).2).Nodup ∧
    (qryIds (runOps memInit ops).2).Pairwise (· < ·) ∧
    (qryIds (runOps memInit ops).2).Nodup ∧
    (convIds (runOps memInit ops).2).Pairwise (· < ·) ∧
    (convIds (runOps memInit ops).2).Nodup ∧
    (∀ l : Location, Created.loc l ∈ (runOps memInit ops).2 →
       getLocation (runOps memInit ops).1 l.id = some l) ∧
    (∀ q : Query, Created.qry q ∈ (runOps memInit ops).2 →
       getQuery (runOps memInit ops).1 q.id = some q) ∧
    (∀ c : Conversation, Created.conv c ∈ (runOps memInit ops).2 →
       mapGet (runOps memInit ops).1.conversations c.id = some c) := by
  obtain ⟨pw1, pw2, pw3⟩ := runOps_ids_pairwise ops memInit
  obtain ⟨f1, f2, f3⟩ := runOps_found ops memInit StoreInv_memInit
  exact ⟨pw1, pw1.imp Nat.ne_of_lt, pw2, pw2.imp Nat.ne_of_lt,
         pw3, pw3.imp Nat.ne_of_lt, f1, f2, f3⟩

end Gee2
